import Mathlib

/-! Negotiation coordinator of `src/rtc.js`.

A shallow embedding of the WebRTC negotiation logic of `src/rtc.js`: the two role
flags `makingOffer` / `ignoreOffer`, the outbound offer triggers `startConnection` and
`handleNegotiationNeeded`, the inbound handlers `signaling.onOffer`, `signaling.onAnswer`,
`signaling.onIceCandidate`, and `restartConnection`.

Modelling conventions.

* The browser object `RTCPeerConnection` is not part of the repository.  It is taken as a
  parameter `Transport τ`: an arbitrary state type `τ` with one function per method the
  source calls.  Every method returns the new transport state together with the outcome
  of the promise (fulfilled or rejected), so a rejected call may or may not have changed
  the transport.
* Each `async` function is run to completion: an `await` resumes with the outcome the
  transport gives, and no other handler runs in between.  The state a handler reads on
  entry is therefore the state at the moment the message arrives.
* Everything a handler does to the outside world (transport calls, messages handed to the
  signaling channel, `statusDiv.textContent`, `console.error` / `console.warn`) is recorded
  in order in a list of `Event`s.
* Registration of DOM and transport callbacks is not modelled.
-/

namespace Rtc

/-! ## Data model -/

/-- The values of `RTCPeerConnection.signalingState`. -/
inductive SignalingState
  | stable
  | haveLocalOffer
  | haveRemoteOffer
  | haveLocalPranswer
  | haveRemotePranswer
  | closed
  deriving DecidableEq, Repr

/-- The type tag of a session description. -/
inductive SdpType
  | offer
  | answer
  | pranswer
  | rollback
  deriving DecidableEq, Repr

/-- An opaque session description: a type tag and a body the coordinator never reads. -/
structure SessionDescription where
  type : SdpType
  sdp : Nat
  deriving DecidableEq, Repr

/-- The object literal written at line 133 of the source: a description of type rollback. -/
def rollbackDescription : SessionDescription := ⟨SdpType.rollback, 0⟩

/-- An opaque ICE candidate. -/
structure IceCandidate where
  candidate : Nat
  deriving DecidableEq, Repr

/-- The exceptions a handler can catch. -/
inductive JsError
  | typeError
  | invalidStateError
  | operationError
  deriving DecidableEq, Repr

/-- The methods of the peer connection that the source calls. -/
inductive Call
  | createDataChannel
  | createOffer
  | createAnswer
  | setLocalDescription (d : SessionDescription)
  | setRemoteDescription (d : SessionDescription)
  | addIceCandidate (c : IceCandidate)
  | close
  deriving DecidableEq, Repr

/-- The texts written to `statusDiv.textContent` by the negotiation code. -/
inductive StatusText
  | startingConnection
  | offerSent
  | receivedOffer
  | answerSent
  | connectionEstablished
  | error (e : JsError)
  deriving DecidableEq, Repr

/-- The `console.error` call sites of the negotiation code. -/
inductive ErrorSite
  | startingConnection
  | negotiation
  | handlingOffer
  | handlingAnswer
  | addingIceCandidate
  deriving DecidableEq, Repr

/-- What a handler does to the outside world, in program order. -/
inductive Event
  | status (t : StatusText)
  | construct (id : Nat)
  | call (id : Nat) (c : Call)
  | sendOffer (d : SessionDescription)
  | sendAnswer (d : SessionDescription)
  | sendIceCandidate (c : IceCandidate)
  | consoleError (site : ErrorSite) (e : JsError)
  | consoleWarn (st : SignalingState)
  deriving DecidableEq, Repr

/-- The transport collaborator: the behaviour of `RTCPeerConnection`, left arbitrary. -/
structure Transport (τ : Type) where
  create : τ
  signalingState : τ → SignalingState
  createDataChannel : τ → τ
  createOffer : τ → τ × Except JsError SessionDescription
  createAnswer : τ → τ × Except JsError SessionDescription
  setLocalDescription : τ → SessionDescription → τ × Except JsError Unit
  setRemoteDescription : τ → SessionDescription → τ × Except JsError Unit
  addIceCandidate : τ → IceCandidate → τ × Except JsError Unit
  close : τ → τ

/-- One `RTCPeerConnection` object: `id` is its identity (objects are numbered in the
order in which they are constructed), `st` its current transport state. -/
structure PeerConnection (τ : Type) where
  id : Nat
  st : τ
  deriving DecidableEq

/-- The module-level variables of lines 16-19, and the number of peer connections
constructed so far. -/
structure Session (τ : Type) where
  peerConnection : Option (PeerConnection τ)
  dataChannel : Option Nat
  makingOffer : Bool
  ignoreOffer : Bool
  allocated : Nat
  deriving DecidableEq

/-- The variables as lines 16-19 leave them when the script is loaded. -/
def Session.initial (τ : Type) : Session τ :=
  { peerConnection := none, dataChannel := none, makingOffer := false,
    ignoreOffer := false, allocated := 0 }

variable {τ : Type}

/-! ## Outbound offer triggers -/

/-- Lines 85 and 100: the assignment `makingOffer = true` that opens the offer window. -/
def openOfferWindow (s : Session τ) : Session τ :=
  { s with makingOffer := true }

/-- Lines 71-83 of `startConnection`: construct the peer connection and its data channel
when there is none. -/
def ensurePeerConnection (T : Transport τ) (s : Session τ) :
    PeerConnection τ × Session τ × List Event :=
  match s.peerConnection with
  | some pc => (pc, s, [])
  | none =>
    let pc : PeerConnection τ := ⟨s.allocated, T.createDataChannel T.create⟩
    (pc,
     { s with peerConnection := some pc, dataChannel := some pc.id,
              allocated := s.allocated + 1 },
     [Event.construct pc.id, Event.call pc.id Call.createDataChannel])

/-- Lines 66-96, `startConnection`.  `makingOffer` is cleared in the `catch` block only. -/
def startConnection (T : Transport τ) (s : Session τ) : Session τ × List Event :=
  match ensurePeerConnection T s with
  | (pc, s1, ev1) =>
    let s2 := openOfferWindow s1
    let ev2 := Event.status StatusText.startingConnection :: ev1
    match T.createOffer pc.st with
    | (st1, Except.error e) =>
      ({ s2 with peerConnection := some { pc with st := st1 }, makingOffer := false },
       ev2 ++ [Event.call pc.id Call.createOffer,
               Event.consoleError ErrorSite.startingConnection e,
               Event.status (StatusText.error e)])
    | (st1, Except.ok offer) =>
      match T.setLocalDescription st1 offer with
      | (st2, Except.error e) =>
        ({ s2 with peerConnection := some { pc with st := st2 }, makingOffer := false },
         ev2 ++ [Event.call pc.id Call.createOffer,
                 Event.call pc.id (Call.setLocalDescription offer),
                 Event.consoleError ErrorSite.startingConnection e,
                 Event.status (StatusText.error e)])
      | (st2, Except.ok _) =>
        ({ s2 with peerConnection := some { pc with st := st2 } },
         ev2 ++ [Event.call pc.id Call.createOffer,
                 Event.call pc.id (Call.setLocalDescription offer),
                 Event.sendOffer offer,
                 Event.status StatusText.offerSent])

/-- Lines 98-109, `handleNegotiationNeeded`.  `makingOffer` is cleared in the `finally`
block. -/
def handleNegotiationNeeded (T : Transport τ) (s : Session τ) : Session τ × List Event :=
  let s1 := openOfferWindow s
  match s1.peerConnection with
  | none =>
    ({ s1 with makingOffer := false },
     [Event.consoleError ErrorSite.negotiation JsError.typeError])
  | some pc =>
    match T.createOffer pc.st with
    | (st1, Except.error e) =>
      ({ s1 with peerConnection := some { pc with st := st1 }, makingOffer := false },
       [Event.call pc.id Call.createOffer,
        Event.consoleError ErrorSite.negotiation e])
    | (st1, Except.ok offer) =>
      match T.setLocalDescription st1 offer with
      | (st2, Except.error e) =>
        ({ s1 with peerConnection := some { pc with st := st2 }, makingOffer := false },
         [Event.call pc.id Call.createOffer,
          Event.call pc.id (Call.setLocalDescription offer),
          Event.consoleError ErrorSite.negotiation e])
      | (st2, Except.ok _) =>
        ({ s1 with peerConnection := some { pc with st := st2 }, makingOffer := false },
         [Event.call pc.id Call.createOffer,
          Event.call pc.id (Call.setLocalDescription offer),
          Event.sendOffer offer])

/-! ## Inbound handlers -/

/-- Lines 115-122 of `signaling.onOffer`: construct the peer connection when there is
none (no data channel is created on this side). -/
def acceptPeerConnection (T : Transport τ) (s : Session τ) :
    PeerConnection τ × Session τ × List Event :=
  match s.peerConnection with
  | some pc => (pc, s, [])
  | none =>
    let pc : PeerConnection τ := ⟨s.allocated, T.create⟩
    (pc,
     { s with peerConnection := some pc, allocated := s.allocated + 1 },
     [Event.construct pc.id])

/-- Line 124: `makingOffer || peerConnection.signalingState != "stable"`. -/
def offerCollision (makingOffer : Bool) (st : SignalingState) : Bool :=
  makingOffer || st != SignalingState.stable

/-- Line 125: `!makingOffer && offerCollision`. -/
def ignoreOfferValue (makingOffer : Bool) (st : SignalingState) : Bool :=
  !makingOffer && offerCollision makingOffer st

/-- Lines 140-144 of `signaling.onOffer`: create the answer, set it locally, send it. -/
def answerOffer (T : Transport τ) (s : Session τ) (pc : PeerConnection τ)
    (st : τ) (evs : List Event) : Session τ × List Event :=
  match T.createAnswer st with
  | (st1, Except.error e) =>
    ({ s with peerConnection := some { pc with st := st1 } },
     evs ++ [Event.call pc.id Call.createAnswer,
             Event.consoleError ErrorSite.handlingOffer e,
             Event.status (StatusText.error e)])
  | (st1, Except.ok answer) =>
    match T.setLocalDescription st1 answer with
    | (st2, Except.error e) =>
      ({ s with peerConnection := some { pc with st := st2 } },
       evs ++ [Event.call pc.id Call.createAnswer,
               Event.call pc.id (Call.setLocalDescription answer),
               Event.consoleError ErrorSite.handlingOffer e,
               Event.status (StatusText.error e)])
    | (st2, Except.ok _) =>
      ({ s with peerConnection := some { pc with st := st2 } },
       evs ++ [Event.call pc.id Call.createAnswer,
               Event.call pc.id (Call.setLocalDescription answer),
               Event.sendAnswer answer,
               Event.status StatusText.answerSent])

/-- Lines 111-149, `signaling.onOffer`.

In the collision branch both calls of the `Promise.all` array are issued, in array
order, before either settles; the transport runs them in that order, and the combined
promise is rejected with the first rejection. -/
def onOffer (T : Transport τ) (s : Session τ) (offer : SessionDescription) :
    Session τ × List Event :=
  match acceptPeerConnection T s with
  | (pc, s1, ev1) =>
    let ev2 := Event.status StatusText.receivedOffer :: ev1
    let collision := offerCollision s1.makingOffer (T.signalingState pc.st)
    let s2 : Session τ :=
      { s1 with ignoreOffer := ignoreOfferValue s1.makingOffer (T.signalingState pc.st) }
    if s2.ignoreOffer then
      (s2, ev2)
    else if collision then
      let rolledBack := T.setLocalDescription pc.st rollbackDescription
      let applied := T.setRemoteDescription rolledBack.1 offer
      let ev3 := ev2 ++ [Event.call pc.id (Call.setLocalDescription rollbackDescription),
                         Event.call pc.id (Call.setRemoteDescription offer)]
      match rolledBack.2, applied.2 with
      | Except.error e, _ =>
        ({ s2 with peerConnection := some { pc with st := applied.1 } },
         ev3 ++ [Event.consoleError ErrorSite.handlingOffer e,
                 Event.status (StatusText.error e)])
      | Except.ok _, Except.error e =>
        ({ s2 with peerConnection := some { pc with st := applied.1 } },
         ev3 ++ [Event.consoleError ErrorSite.handlingOffer e,
                 Event.status (StatusText.error e)])
      | Except.ok _, Except.ok _ => answerOffer T s2 pc applied.1 ev3
    else
      match T.setRemoteDescription pc.st offer with
      | (st1, Except.error e) =>
        ({ s2 with peerConnection := some { pc with st := st1 } },
         ev2 ++ [Event.call pc.id (Call.setRemoteDescription offer),
                 Event.consoleError ErrorSite.handlingOffer e,
                 Event.status (StatusText.error e)])
      | (st1, Except.ok _) =>
        answerOffer T s2 pc st1 (ev2 ++ [Event.call pc.id (Call.setRemoteDescription offer)])

/-- Lines 153-156: `!makingOffer && (state == "have-local-offer" ||
state == "have-remote-offer")`. -/
def readyForAnswer (makingOffer : Bool) (st : SignalingState) : Bool :=
  !makingOffer && (st == SignalingState.haveLocalOffer || st == SignalingState.haveRemoteOffer)

/-- Lines 151-169, `signaling.onAnswer`.  With `makingOffer` true the `&&` short-circuits
and the peer connection is not dereferenced at line 153; it is at line 159. -/
def onAnswer (T : Transport τ) (s : Session τ) (answer : SessionDescription) :
    Session τ × List Event :=
  match s.peerConnection with
  | none =>
    (s, [Event.consoleError ErrorSite.handlingAnswer JsError.typeError,
         Event.status (StatusText.error JsError.typeError)])
  | some pc =>
    if !readyForAnswer s.makingOffer (T.signalingState pc.st) then
      (s, [Event.consoleWarn (T.signalingState pc.st)])
    else
      match T.setRemoteDescription pc.st answer with
      | (st1, Except.error e) =>
        ({ s with peerConnection := some { pc with st := st1 } },
         [Event.call pc.id (Call.setRemoteDescription answer),
          Event.consoleError ErrorSite.handlingAnswer e,
          Event.status (StatusText.error e)])
      | (st1, Except.ok _) =>
        ({ s with peerConnection := some { pc with st := st1 } },
         [Event.call pc.id (Call.setRemoteDescription answer),
          Event.status StatusText.connectionEstablished])

/-- Lines 171-178, `signaling.onIceCandidate`. -/
def onIceCandidate (T : Transport τ) (s : Session τ) (candidate : IceCandidate) :
    Session τ × List Event :=
  if s.ignoreOffer then
    (s, [])
  else
    match s.peerConnection with
    | none => (s, [Event.consoleError ErrorSite.addingIceCandidate JsError.typeError])
    | some pc =>
      match T.addIceCandidate pc.st candidate with
      | (st1, Except.error e) =>
        ({ s with peerConnection := some { pc with st := st1 } },
         [Event.call pc.id (Call.addIceCandidate candidate),
          Event.consoleError ErrorSite.addingIceCandidate e])
      | (st1, Except.ok _) =>
        ({ s with peerConnection := some { pc with st := st1 } },
         [Event.call pc.id (Call.addIceCandidate candidate)])

/-- Lines 180-184, `handleICECandidateEvent`. -/
def handleICECandidateEvent (s : Session τ) (candidate : Option IceCandidate) :
    Session τ × List Event :=
  match candidate with
  | some c => (s, [Event.sendIceCandidate c])
  | none => (s, [])

/-! ## Restart -/

/-- Lines 241-244 of `restartConnection`: close and forget the current peer connection. -/
def closePeerConnection (s : Session τ) : Session τ × List Event :=
  match s.peerConnection with
  | some pc => ({ s with peerConnection := none }, [Event.call pc.id Call.close])
  | none => (s, [])

/-- Lines 240-246, `restartConnection`. -/
def restartConnection (T : Transport τ) (s : Session τ) : Session τ × List Event :=
  match closePeerConnection s with
  | (s1, ev1) =>
    match startConnection T s1 with
    | (s2, ev2) => (s2, ev1 ++ ev2)

/-! ## The handlers as a transition system -/

/-- The entry points of the negotiation code, with the argument each is invoked with. -/
inductive Action
  | startConnection
  | handleNegotiationNeeded
  | onOffer (offer : SessionDescription)
  | onAnswer (answer : SessionDescription)
  | onIceCandidate (candidate : IceCandidate)
  | handleICECandidateEvent (candidate : Option IceCandidate)
  | restartConnection
  deriving DecidableEq, Repr

/-- Whether the action is the delivery of an inbound offer. -/
def Action.isOffer : Action → Bool
  | Action.onOffer _ => true
  | _ => false

/-- Run one handler to completion. -/
def step (T : Transport τ) (s : Session τ) : Action → Session τ × List Event
  | Action.startConnection => startConnection T s
  | Action.handleNegotiationNeeded => handleNegotiationNeeded T s
  | Action.onOffer offer => onOffer T s offer
  | Action.onAnswer answer => onAnswer T s answer
  | Action.onIceCandidate candidate => onIceCandidate T s candidate
  | Action.handleICECandidateEvent candidate => handleICECandidateEvent s candidate
  | Action.restartConnection => restartConnection T s

/-- Run a sequence of handlers, one after the other, collecting the trace. -/
def run (T : Transport τ) (s : Session τ) : List Action → Session τ × List Event
  | [] => (s, [])
  | a :: rest => ((run T (step T s a).1 rest).1, (step T s a).2 ++ (run T (step T s a).1 rest).2)

/-! ## Reading a trace -/

/-- The transport calls of a trace, each with the identity of the object it was made on. -/
def transportCalls (evs : List Event) : List (Nat × Call) :=
  evs.filterMap fun e =>
    match e with
    | Event.call id c => some (id, c)
    | _ => none

/-- The offers handed to `signaling.sendOffer`. -/
def sentOffers (evs : List Event) : List SessionDescription :=
  evs.filterMap fun e =>
    match e with
    | Event.sendOffer d => some d
    | _ => none

/-- The answers handed to `signaling.sendAnswer`. -/
def sentAnswers (evs : List Event) : List SessionDescription :=
  evs.filterMap fun e =>
    match e with
    | Event.sendAnswer d => some d
    | _ => none

/-- The errors reported through `console.error`. -/
def reportedErrors (evs : List Event) : List (ErrorSite × JsError) :=
  evs.filterMap fun e =>
    match e with
    | Event.consoleError site err => some (site, err)
    | _ => none

/-- The peer connections constructed in a trace. -/
def constructed (evs : List Event) : List Nat :=
  evs.filterMap fun e =>
    match e with
    | Event.construct id => some id
    | _ => none

/-- The offer was ignored: the handler touched neither the transport nor the channel. -/
def TookIgnorePath (evs : List Event) : Prop :=
  transportCalls evs = [] ∧ sentAnswers evs = []

/-- The offer went down the collision branch: the first two transport calls are the
rollback of the local description and the application of the remote offer. -/
def TookRollbackPath (id : Nat) (offer : SessionDescription) (evs : List Event) : Prop :=
  (transportCalls evs).take 2 =
    [(id, Call.setLocalDescription rollbackDescription), (id, Call.setRemoteDescription offer)]

/-- The offer was applied directly: the first transport call is the application of the
remote offer. -/
def TookDirectPath (id : Nat) (offer : SessionDescription) (evs : List Event) : Prop :=
  (transportCalls evs).head? = some (id, Call.setRemoteDescription offer)

instance (evs : List Event) : Decidable (TookIgnorePath evs) := by
  unfold TookIgnorePath; infer_instance

instance (id : Nat) (offer : SessionDescription) (evs : List Event) :
    Decidable (TookRollbackPath id offer evs) := by
  unfold TookRollbackPath; infer_instance

instance (id : Nat) (offer : SessionDescription) (evs : List Event) :
    Decidable (TookDirectPath id offer evs) := by
  unfold TookDirectPath; infer_instance

/-- The signaling state of the session's peer connection, when there is one. -/
def Session.signalingState (T : Transport τ) (s : Session τ) : Option SignalingState :=
  s.peerConnection.map fun pc => T.signalingState pc.st

/-! ## A reference transport -/

/-- Modelled from the spec: the state of the transport collaborator of section 6 (the
browser's `RTCPeerConnection`, which is not part of the repository): its signaling state
(section 4.1), the pending and current descriptions, the candidates applied, and counters
for the data channels and descriptions it has created. -/
structure RefState where
  signalingState : SignalingState
  pendingLocal : Option SessionDescription
  pendingRemote : Option SessionDescription
  currentLocal : Option SessionDescription
  currentRemote : Option SessionDescription
  candidates : List IceCandidate
  channels : Nat
  created : Nat
  deriving DecidableEq, Repr

/-- Modelled from the spec: applying a local description, with the transitions of the
WebRTC offer/answer state machine between the signaling states of section 4.1.  An offer is accepted in `stable` or `have-local-offer`, an answer or provisional
answer after a remote offer, a rollback only while an offer is pending. -/
def RefState.applyLocal (p : RefState) (d : SessionDescription) : Option RefState :=
  match d.type, p.signalingState with
  | SdpType.offer, SignalingState.stable
  | SdpType.offer, SignalingState.haveLocalOffer =>
    some { p with signalingState := SignalingState.haveLocalOffer, pendingLocal := some d }
  | SdpType.answer, SignalingState.haveRemoteOffer
  | SdpType.answer, SignalingState.haveLocalPranswer =>
    some { p with signalingState := SignalingState.stable, currentLocal := some d,
                  currentRemote := p.pendingRemote, pendingLocal := none,
                  pendingRemote := none }
  | SdpType.pranswer, SignalingState.haveRemoteOffer
  | SdpType.pranswer, SignalingState.haveLocalPranswer =>
    some { p with signalingState := SignalingState.haveLocalPranswer, pendingLocal := some d }
  | SdpType.rollback, SignalingState.haveLocalOffer
  | SdpType.rollback, SignalingState.haveRemoteOffer =>
    some { p with signalingState := SignalingState.stable, pendingLocal := none,
                  pendingRemote := none }
  | _, _ => none

/-- Modelled from the spec: applying a remote description in the offer/answer state
machine, the mirror image of `RefState.applyLocal`. -/
def RefState.applyRemote (p : RefState) (d : SessionDescription) : Option RefState :=
  match d.type, p.signalingState with
  | SdpType.offer, SignalingState.stable
  | SdpType.offer, SignalingState.haveRemoteOffer =>
    some { p with signalingState := SignalingState.haveRemoteOffer, pendingRemote := some d }
  | SdpType.answer, SignalingState.haveLocalOffer
  | SdpType.answer, SignalingState.haveRemotePranswer =>
    some { p with signalingState := SignalingState.stable, currentRemote := some d,
                  currentLocal := p.pendingLocal, pendingLocal := none,
                  pendingRemote := none }
  | SdpType.pranswer, SignalingState.haveLocalOffer
  | SdpType.pranswer, SignalingState.haveRemotePranswer =>
    some { p with signalingState := SignalingState.haveRemotePranswer,
                  pendingRemote := some d }
  | SdpType.rollback, SignalingState.haveLocalOffer
  | SdpType.rollback, SignalingState.haveRemoteOffer =>
    some { p with signalingState := SignalingState.stable, pendingLocal := none,
                  pendingRemote := none }
  | _, _ => none

/-- Modelled from the spec: a call on the reference transport is rejected when the
connection is closed or when the fault plan `rejects` says so; the state is then left as
it was. -/
def RefState.guard {α : Type} (p : RefState) (rejects : Call → Bool) (c : Call)
    (effect : Option (RefState × α)) : RefState × Except JsError α :=
  if p.signalingState = SignalingState.closed then (p, Except.error JsError.invalidStateError)
  else if rejects c then (p, Except.error JsError.operationError)
  else
    match effect with
    | some (q, a) => (q, Except.ok a)
    | none => (p, Except.error JsError.invalidStateError)

/-- Modelled from the spec: the transport collaborator of section 6, as a reference
implementation of `Transport`.  `seed` numbers the descriptions this endpoint creates;
`rejects` is a fault plan naming the calls the transport rejects. -/
def refTransport (seed : Nat) (rejects : Call → Bool) : Transport RefState where
  create :=
    { signalingState := SignalingState.stable, pendingLocal := none, pendingRemote := none,
      currentLocal := none, currentRemote := none, candidates := [], channels := 0,
      created := 0 }
  signalingState := fun p => p.signalingState
  createDataChannel := fun p => { p with channels := p.channels + 1 }
  createOffer := fun p =>
    p.guard rejects Call.createOffer
      (some ({ p with created := p.created + 1 }, ⟨SdpType.offer, seed + p.created⟩))
  createAnswer := fun p =>
    p.guard rejects Call.createAnswer
      (if p.signalingState = SignalingState.haveRemoteOffer
          ∨ p.signalingState = SignalingState.haveLocalPranswer then
        some ({ p with created := p.created + 1 }, ⟨SdpType.answer, seed + p.created⟩)
      else none)
  setLocalDescription := fun p d =>
    p.guard rejects (Call.setLocalDescription d) ((p.applyLocal d).map fun q => (q, ()))
  setRemoteDescription := fun p d =>
    p.guard rejects (Call.setRemoteDescription d) ((p.applyRemote d).map fun q => (q, ()))
  addIceCandidate := fun p c =>
    p.guard rejects (Call.addIceCandidate c)
      (if p.pendingRemote.isSome ∨ p.currentRemote.isSome then
        some ({ p with candidates := p.candidates ++ [c] }, ())
      else none)
  close := fun p => { p with signalingState := SignalingState.closed }

/-- A fault plan that rejects nothing. -/
def noFaults : Call → Bool := fun _ => false

/-- The reference transport of endpoint A, with no faults. -/
def transportA : Transport RefState := refTransport 100 noFaults

/-- The reference transport of endpoint B, with no faults. -/
def transportB : Transport RefState := refTransport 200 noFaults

/-- An endpoint whose peer connection has just been constructed, with both flags false. -/
def idleSession (T : Transport τ) : Session τ :=
  { peerConnection := some ⟨0, T.create⟩, dataChannel := none,
    makingOffer := false, ignoreOffer := false, allocated := 1 }

/-! ## Two endpoints -/

/-- Deliver to an endpoint, through `signaling.onOffer`, every offer its peer handed to the
signaling channel in the trace `peer`. -/
def deliverOffers (T : Transport τ) (s : Session τ) (peer : List Event) :
    Session τ × List Event :=
  run T s ((sentOffers peer).map Action.onOffer)

/-- Deliver to an endpoint, through `signaling.onAnswer`, every answer its peer handed to
the signaling channel in the trace `peer`. -/
def deliverAnswers (T : Transport τ) (s : Session τ) (peer : List Event) :
    Session τ × List Event :=
  run T s ((sentAnswers peer).map Action.onAnswer)

/-- Glare: endpoint A starts a negotiation with `startA`, endpoint B with `startB` before
A's offer reaches it, and then each side's offer is delivered to the other side.  The result
is what `signaling.onOffer` did on A and on B. -/
def crossingOffers {α β : Type}
    (startA : Transport α → Session α → Session α × List Event)
    (startB : Transport β → Session β → Session β × List Event)
    (TA : Transport α) (TB : Transport β) (a0 : Session α) (b0 : Session β) :
    (Session α × List Event) × (Session β × List Event) :=
  (deliverOffers TA (startA TA a0).1 (startB TB b0).2,
   deliverOffers TB (startB TB b0).1 (startA TA a0).2)

/-- Glare resolved the way the specification asks: one side took the rollback path and the
other side ignored the offer it received. -/
def GlareResolved (idA : Nat) (toA : SessionDescription) (evA : List Event)
    (idB : Nat) (toB : SessionDescription) (evB : List Event) : Prop :=
  (TookRollbackPath idA toA evA ∧ TookIgnorePath evB) ∨
  (TookIgnorePath evA ∧ TookRollbackPath idB toB evB)

instance (idA : Nat) (toA : SessionDescription) (evA : List Event)
    (idB : Nat) (toB : SessionDescription) (evB : List Event) :
    Decidable (GlareResolved idA toA evA idB toB evB) := by
  unfold GlareResolved; infer_instance

/-- End-to-end scenario 1: A starts a negotiation with `startA`, B receives A's offer, and
A receives B's answer.  The result is what `signaling.onAnswer` did on A and what
`signaling.onOffer` did on B. -/
def scenario1 {α β : Type}
    (startA : Transport α → Session α → Session α × List Event)
    (TA : Transport α) (TB : Transport β) (a0 : Session α) (b0 : Session β) :
    (Session α × List Event) × (Session β × List Event) :=
  (deliverAnswers TA (startA TA a0).1 (deliverOffers TB b0 (startA TA a0).2).2,
   deliverOffers TB b0 (startA TA a0).2)

/-- The reference transport of endpoint A with one fault: it rejects the application of
the remote offer numbered 200. -/
def transportRejectingOffer : Transport RefState :=
  refTransport 100 fun c => decide (c = Call.setRemoteDescription ⟨SdpType.offer, 200⟩)

/-- Object identities are numbers already given out: the current peer connection, when
there is one, was constructed earlier. -/
def WellNumbered (s : Session τ) : Prop :=
  ∀ pc, s.peerConnection = some pc → pc.id < s.allocated

end Rtc

namespace Rtc

variable {τ : Type}

/-! ## Shape of the traces -/

theorem transportCalls_append (xs ys : List Event) :
    transportCalls (xs ++ ys) = transportCalls xs ++ transportCalls ys := by
  simp [transportCalls, List.filterMap_append]

theorem answerOffer_flags (T : Transport τ) (s : Session τ) (pc : PeerConnection τ)
    (st : τ) (evs : List Event) :
    (answerOffer T s pc st evs).1.ignoreOffer = s.ignoreOffer ∧
    (answerOffer T s pc st evs).1.makingOffer = s.makingOffer := by
  unfold answerOffer
  split
  · simp
  · split <;> simp

theorem answerOffer_calls (T : Transport τ) (s : Session τ) (pc : PeerConnection τ)
    (st : τ) (evs : List Event) :
    ∃ rest, transportCalls (answerOffer T s pc st evs).2 = transportCalls evs ++ rest := by
  unfold answerOffer
  split
  · exact ⟨_, transportCalls_append _ _⟩
  · split <;> exact ⟨_, transportCalls_append _ _⟩

theorem onOffer_ignored (T : Transport τ) (s : Session τ) (pc : PeerConnection τ)
    (offer : SessionDescription) (h : s.peerConnection = some pc)
    (hm : s.makingOffer = false) (hs : T.signalingState pc.st ≠ SignalingState.stable) :
    onOffer T s offer =
      ({ s with ignoreOffer := true }, [Event.status StatusText.receivedOffer]) := by
  simp [onOffer, acceptPeerConnection, h, ignoreOfferValue, offerCollision, hm, hs]

theorem onOffer_rollback (T : Transport τ) (s : Session τ) (pc : PeerConnection τ)
    (offer : SessionDescription) (h : s.peerConnection = some pc)
    (hm : s.makingOffer = true) :
    (onOffer T s offer).1.ignoreOffer = false ∧
    ∃ rest, transportCalls (onOffer T s offer).2 =
      (pc.id, Call.setLocalDescription rollbackDescription) ::
        (pc.id, Call.setRemoteDescription offer) :: rest := by
  simp only [onOffer, acceptPeerConnection, h, ignoreOfferValue, offerCollision, hm]
  simp only [Bool.not_true, Bool.false_and, Bool.true_or, if_true, Bool.false_eq_true, if_false]
  generalize T.setLocalDescription pc.st rollbackDescription = x1
  obtain ⟨st1, r1⟩ := x1
  generalize T.setRemoteDescription st1 offer = x2
  obtain ⟨st2, r2⟩ := x2
  rcases r1 with e1 | u1 <;> rcases r2 with e2 | u2
  · exact ⟨rfl, _, rfl⟩
  · exact ⟨rfl, _, rfl⟩
  · exact ⟨rfl, _, rfl⟩
  · dsimp only
    exact ⟨(answerOffer_flags T _ pc st2 _).1, answerOffer_calls T _ pc st2 _⟩

theorem onOffer_direct (T : Transport τ) (s : Session τ) (pc : PeerConnection τ)
    (offer : SessionDescription) (h : s.peerConnection = some pc)
    (hm : s.makingOffer = false) (hs : T.signalingState pc.st = SignalingState.stable) :
    (onOffer T s offer).1.ignoreOffer = false ∧
    ∃ rest, transportCalls (onOffer T s offer).2 =
      (pc.id, Call.setRemoteDescription offer) :: rest := by
  simp only [onOffer, acceptPeerConnection, h, ignoreOfferValue, offerCollision, hm, hs]
  simp only [Bool.not_false, Bool.true_and, Bool.false_or, bne_self_eq_false,
    Bool.false_eq_true, if_false]
  generalize T.setRemoteDescription pc.st offer = x1
  obtain ⟨st1, r1⟩ := x1
  rcases r1 with e1 | u1
  · exact ⟨rfl, _, rfl⟩
  · dsimp only
    exact ⟨(answerOffer_flags T _ pc st1 _).1, answerOffer_calls T _ pc st1 _⟩

/-! ## The inbound offer -/

/-- Claim C1: for a session whose peer connection exists, `signaling.onOffer` sets
`ignoreOffer` to `!makingOffer && signalingState != stable` and takes exactly one of three
paths, decided by the values on arrival: the offer is ignored (no transport call, no answer
sent) exactly when `makingOffer` is false and the state is not stable; the local description
is rolled back and the remote offer applied exactly when `makingOffer` is true; the remote
offer is applied directly exactly when `makingOffer` is false and the state is stable.  When
the offer is not ignored, a collision implies that `makingOffer` is true. -/
theorem onOffer_three_paths (T : Transport τ) (s : Session τ) (pc : PeerConnection τ)
    (offer : SessionDescription) (h : s.peerConnection = some pc) :
    (onOffer T s offer).1.ignoreOffer =
        (!s.makingOffer && T.signalingState pc.st != SignalingState.stable) ∧
    (TookIgnorePath (onOffer T s offer).2 ↔
        s.makingOffer = false ∧ T.signalingState pc.st ≠ SignalingState.stable) ∧
    (TookRollbackPath pc.id offer (onOffer T s offer).2 ↔ s.makingOffer = true) ∧
    (TookDirectPath pc.id offer (onOffer T s offer).2 ↔
        s.makingOffer = false ∧ T.signalingState pc.st = SignalingState.stable) ∧
    ((TookIgnorePath (onOffer T s offer).2 ∧ ¬ TookRollbackPath pc.id offer (onOffer T s offer).2
        ∧ ¬ TookDirectPath pc.id offer (onOffer T s offer).2) ∨
     (¬ TookIgnorePath (onOffer T s offer).2 ∧ TookRollbackPath pc.id offer (onOffer T s offer).2
        ∧ ¬ TookDirectPath pc.id offer (onOffer T s offer).2) ∨
     (¬ TookIgnorePath (onOffer T s offer).2 ∧ ¬ TookRollbackPath pc.id offer (onOffer T s offer).2
        ∧ TookDirectPath pc.id offer (onOffer T s offer).2)) ∧
    (offerCollision s.makingOffer (T.signalingState pc.st) = true →
        (onOffer T s offer).1.ignoreOffer = false → s.makingOffer = true) := by
  cases hm : s.makingOffer
  · by_cases hs : T.signalingState pc.st = SignalingState.stable
    · obtain ⟨hi, rest, hc⟩ := onOffer_direct T s pc offer h hm hs
      simp [TookIgnorePath, TookRollbackPath, TookDirectPath, hc, hi, hs, offerCollision]
    · rw [onOffer_ignored T s pc offer h hm hs]
      simp [TookIgnorePath, TookRollbackPath, TookDirectPath, hs, transportCalls, sentAnswers]
  · obtain ⟨hi, rest, hc⟩ := onOffer_rollback T s pc offer h hm
    simp [TookIgnorePath, TookRollbackPath, TookDirectPath, hc, hi]

/-- Witness for C1: an endpoint that has just sent its own offer through
`handleNegotiationNeeded` receives an offer. -/
theorem onOffer_three_paths_witness :
    (handleNegotiationNeeded transportA (idleSession transportA)).1.peerConnection =
        some ⟨0, (transportA.setLocalDescription (transportA.createOffer transportA.create).1
          ⟨SdpType.offer, 100⟩).1⟩ ∧
    TookIgnorePath
      (onOffer transportA (handleNegotiationNeeded transportA (idleSession transportA)).1
        ⟨SdpType.offer, 200⟩).2 :=
  ⟨rfl,
   ((onOffer_three_paths transportA
      (handleNegotiationNeeded transportA (idleSession transportA)).1
      ⟨0, (transportA.setLocalDescription (transportA.createOffer transportA.create).1
          ⟨SdpType.offer, 100⟩).1⟩ ⟨SdpType.offer, 200⟩ rfl).2.1).2
      ⟨rfl, by decide⟩⟩

/-! ## The offer window -/

/-- The `finally` block of `handleNegotiationNeeded`: whatever the transport does, and
whether or not a peer connection exists, `makingOffer` is false when the call completes. -/
theorem handleNegotiationNeeded_resets (T : Transport τ) (s : Session τ) :
    (handleNegotiationNeeded T s).1.makingOffer = false := by
  unfold handleNegotiationNeeded
  dsimp only
  split
  · rfl
  · split
    · rfl
    · split <;> rfl

/-- The `catch` block of `startConnection`: when `createOffer` is rejected, or
`setLocalDescription` is, `makingOffer` is false when the call completes. -/
theorem startConnection_resets_on_failure (T : Transport τ) (s : Session τ)
    (h : (T.createOffer (ensurePeerConnection T s).1.st).2.isOk = false ∨
         ∃ offer, (T.createOffer (ensurePeerConnection T s).1.st).2 = Except.ok offer ∧
           (T.setLocalDescription (T.createOffer (ensurePeerConnection T s).1.st).1 offer).2.isOk
             = false) :
    (startConnection T s).1.makingOffer = false := by
  revert h
  unfold startConnection
  generalize ensurePeerConnection T s = x
  obtain ⟨pc, s1, ev1⟩ := x
  dsimp only
  generalize T.createOffer pc.st = y
  obtain ⟨st1, r1⟩ := y
  rcases r1 with e1 | offer
  · intro _; rfl
  · dsimp only
    generalize hz : T.setLocalDescription st1 offer = z
    obtain ⟨st2, r2⟩ := z
    rcases r2 with e2 | u2
    · intro _; rfl
    · intro h
      rcases h with h | ⟨o, ho, h⟩
      · simp [Except.isOk, Except.toBool] at h
      · cases ho
        rw [hz] at h
        simp [Except.isOk, Except.toBool] at h

/-- Claim C2, at the point where the code departs from it: whenever `createOffer` and
`setLocalDescription` both succeed, `startConnection` completes (the offer is handed to the
signaling channel and no error is reported) with `makingOffer` still true. -/
theorem startConnection_leaves_makingOffer_set (T : Transport τ) (s : Session τ)
    (st1 st2 : τ) (offer : SessionDescription)
    (h1 : T.createOffer (ensurePeerConnection T s).1.st = (st1, Except.ok offer))
    (h2 : T.setLocalDescription st1 offer = (st2, Except.ok ())) :
    (startConnection T s).1.makingOffer = true ∧
    sentOffers (startConnection T s).2 = [offer] ∧
    reportedErrors (startConnection T s).2 = [] := by
  revert h1
  unfold startConnection ensurePeerConnection
  cases s.peerConnection with
  | none =>
    dsimp only
    intro h1
    rw [h1]
    dsimp only
    rw [h2]
    exact ⟨rfl, rfl, rfl⟩
  | some pc =>
    dsimp only
    intro h1
    rw [h1]
    dsimp only
    rw [h2]
    exact ⟨rfl, rfl, rfl⟩

/-- Failing input for C2: the first `startConnection` of a freshly loaded page, on a
transport that rejects nothing. -/
theorem startConnection_leaves_makingOffer_set_witness :
    (startConnection transportA (Session.initial RefState)).1.makingOffer = true ∧
    sentOffers (startConnection transportA (Session.initial RefState)).2
      = [⟨SdpType.offer, 100⟩] ∧
    reportedErrors (startConnection transportA (Session.initial RefState)).2 = [] :=
  startConnection_leaves_makingOffer_set transportA (Session.initial RefState)
    _ _ ⟨SdpType.offer, 100⟩ rfl rfl

/-! ## The inbound answer -/

theorem onAnswer_ignoreOffer (T : Transport τ) (s : Session τ) (answer : SessionDescription) :
    (onAnswer T s answer).1.ignoreOffer = s.ignoreOffer := by
  unfold onAnswer
  split
  · rfl
  · split
    · rfl
    · split <;> rfl

theorem onIceCandidate_ignoreOffer (T : Transport τ) (s : Session τ)
    (candidate : IceCandidate) :
    (onIceCandidate T s candidate).1.ignoreOffer = s.ignoreOffer := by
  unfold onIceCandidate
  split
  · rfl
  · split
    · rfl
    · split <;> rfl

theorem onAnswer_without_peerConnection (T : Transport τ) (s : Session τ)
    (answer : SessionDescription) (h : s.peerConnection = none) :
    onAnswer T s answer =
      (s, [Event.consoleError ErrorSite.handlingAnswer JsError.typeError,
           Event.status (StatusText.error JsError.typeError)]) := by
  simp [onAnswer, h]

theorem onAnswer_makingOffer (T : Transport τ) (s : Session τ)
    (answer : SessionDescription) :
    (onAnswer T s answer).1.makingOffer = s.makingOffer := by
  unfold onAnswer
  split
  · rfl
  · split
    · rfl
    · split <;> rfl

/-- Counterexample to C3: an answer reaches a page that has no peer connection yet.  The
answer is not applied (no transport call, session unchanged), but the handler does not
discard it quietly: reading the signaling state throws inside the `try` block, and the
`catch` block logs the error and shows it in the status line. -/
theorem onAnswer_error_without_peerConnection :
    (Session.initial RefState).makingOffer = false ∧
    Session.signalingState transportA (Session.initial RefState) = none ∧
    transportCalls (onAnswer transportA (Session.initial RefState) ⟨SdpType.answer, 200⟩).2
      = [] ∧
    (onAnswer transportA (Session.initial RefState) ⟨SdpType.answer, 200⟩).1
      = Session.initial RefState ∧
    reportedErrors (onAnswer transportA (Session.initial RefState) ⟨SdpType.answer, 200⟩).2
      = [(ErrorSite.handlingAnswer, JsError.typeError)] ∧
    ¬ reportedErrors (onAnswer transportA (Session.initial RefState) ⟨SdpType.answer, 200⟩).2
      = [] := by
  decide

/-- Claim C3 as amended.  In every session `signaling.onAnswer` keeps both flags.  When the
peer connection exists, it calls `setRemoteDescription(answer)` if and only if `makingOffer`
is false and the signaling state is have-local-offer or have-remote-offer; in that case this
is its only transport call and the session is left with the transport state that call
produced; otherwise the answer is discarded: the session (transport state and both flags
included) is unchanged, no transport call is made and the only effect is the warning, so no
error is reported.  When there is no peer connection the answer is not applied either and
the session is unchanged, but an error is logged and shown in the status line. -/
theorem onAnswer_applies_iff_ready (T : Transport τ) (s : Session τ)
    (answer : SessionDescription) :
    (∀ pc, s.peerConnection = some pc →
      ((pc.id, Call.setRemoteDescription answer) ∈ transportCalls (onAnswer T s answer).2 ↔
          s.makingOffer = false ∧
            (T.signalingState pc.st = SignalingState.haveLocalOffer ∨
             T.signalingState pc.st = SignalingState.haveRemoteOffer)) ∧
      (s.makingOffer = false ∧
            (T.signalingState pc.st = SignalingState.haveLocalOffer ∨
             T.signalingState pc.st = SignalingState.haveRemoteOffer) →
          (onAnswer T s answer).1 =
            { s with
              peerConnection := some ⟨pc.id, (T.setRemoteDescription pc.st answer).1⟩ } ∧
          transportCalls (onAnswer T s answer).2
            = [(pc.id, Call.setRemoteDescription answer)]) ∧
      (¬ (s.makingOffer = false ∧
            (T.signalingState pc.st = SignalingState.haveLocalOffer ∨
             T.signalingState pc.st = SignalingState.haveRemoteOffer)) →
          (onAnswer T s answer).1 = s ∧
          (onAnswer T s answer).2 = [Event.consoleWarn (T.signalingState pc.st)] ∧
          transportCalls (onAnswer T s answer).2 = [] ∧
          reportedErrors (onAnswer T s answer).2 = [])) ∧
    (s.peerConnection = none →
      (onAnswer T s answer).1 = s ∧
      transportCalls (onAnswer T s answer).2 = [] ∧
      (onAnswer T s answer).2 =
        [Event.consoleError ErrorSite.handlingAnswer JsError.typeError,
         Event.status (StatusText.error JsError.typeError)]) ∧
    (onAnswer T s answer).1.makingOffer = s.makingOffer ∧
    (onAnswer T s answer).1.ignoreOffer = s.ignoreOffer := by
  refine ⟨?_, ?_, onAnswer_makingOffer T s answer, onAnswer_ignoreOffer T s answer⟩
  · intro pc h
    by_cases hr : readyForAnswer s.makingOffer (T.signalingState pc.st) = true
    · have hr2 : s.makingOffer = false ∧
            (T.signalingState pc.st = SignalingState.haveLocalOffer ∨
             T.signalingState pc.st = SignalingState.haveRemoteOffer) := by
        simpa [readyForAnswer] using hr
      simp only [onAnswer, h, hr]
      generalize T.setRemoteDescription pc.st answer = x
      obtain ⟨st1, r1⟩ := x
      rcases r1 with e1 | u1 <;> simp [transportCalls, hr2]
    · have hr2 : ¬ (s.makingOffer = false ∧
            (T.signalingState pc.st = SignalingState.haveLocalOffer ∨
             T.signalingState pc.st = SignalingState.haveRemoteOffer)) := by
        simpa [readyForAnswer] using hr
      have hr3 : readyForAnswer s.makingOffer (T.signalingState pc.st) = false := by
        simpa using hr
      simp only [onAnswer, h, hr3]
      simp [transportCalls, reportedErrors, hr2]
  · intro h
    rw [onAnswer_without_peerConnection T s answer h]
    exact ⟨rfl, rfl, rfl⟩

/-- Witness for the amended C3: an answer reaches an endpoint that is stable. -/
theorem onAnswer_applies_iff_ready_witness :
    (idleSession transportA).peerConnection = some ⟨0, transportA.create⟩ ∧
    (onAnswer transportA (idleSession transportA) ⟨SdpType.answer, 200⟩).2
      = [Event.consoleWarn SignalingState.stable] :=
  ⟨rfl,
   (((onAnswer_applies_iff_ready transportA (idleSession transportA)
      ⟨SdpType.answer, 200⟩).1 ⟨0, transportA.create⟩ rfl).2.2 (by decide)).2.1⟩

/-- Claim C7: once `signaling.onAnswer` has applied an answer, taking the signaling state
from have-local-offer to stable, a second delivery of the same answer is discarded: it makes
no transport call, only warns, and leaves the session as the first delivery left it. -/
theorem onAnswer_duplicate_discarded (T : Transport τ) (s : Session τ)
    (pc : PeerConnection τ) (answer : SessionDescription) (st1 : τ)
    (h : s.peerConnection = some pc) (hm : s.makingOffer = false)
    (hs : T.signalingState pc.st = SignalingState.haveLocalOffer)
    (happly : T.setRemoteDescription pc.st answer = (st1, Except.ok ()))
    (hstable : T.signalingState st1 = SignalingState.stable) :
    transportCalls (onAnswer T s answer).2 = [(pc.id, Call.setRemoteDescription answer)] ∧
    Session.signalingState T (onAnswer T s answer).1 = some SignalingState.stable ∧
    (onAnswer T (onAnswer T s answer).1 answer).1 = (onAnswer T s answer).1 ∧
    (onAnswer T (onAnswer T s answer).1 answer).2
      = [Event.consoleWarn SignalingState.stable] ∧
    transportCalls (onAnswer T (onAnswer T s answer).1 answer).2 = [] := by
  have first : onAnswer T s answer =
      ({ s with peerConnection := some { pc with st := st1 } },
       [Event.call pc.id (Call.setRemoteDescription answer),
        Event.status StatusText.connectionEstablished]) := by
    simp [onAnswer, h, hm, hs, happly, readyForAnswer]
  rw [first]
  simp [onAnswer, hm, hstable, readyForAnswer, transportCalls, Session.signalingState]

/-- Witness for C7: the answer to an offer sent through `handleNegotiationNeeded`,
delivered twice. -/
theorem onAnswer_duplicate_discarded_witness :
    (onAnswer transportA
        (onAnswer transportA (handleNegotiationNeeded transportA (idleSession transportA)).1
          ⟨SdpType.answer, 200⟩).1 ⟨SdpType.answer, 200⟩).1
      = (onAnswer transportA (handleNegotiationNeeded transportA (idleSession transportA)).1
          ⟨SdpType.answer, 200⟩).1 :=
  (onAnswer_duplicate_discarded transportA
      (handleNegotiationNeeded transportA (idleSession transportA)).1
      ⟨0, (transportA.setLocalDescription (transportA.createOffer transportA.create).1
          ⟨SdpType.offer, 100⟩).1⟩
      ⟨SdpType.answer, 200⟩ _ rfl rfl rfl rfl rfl).2.2.1

/-! ## Inbound candidates -/

theorem onIceCandidate_without_peerConnection (T : Transport τ) (s : Session τ)
    (candidate : IceCandidate) (h : s.peerConnection = none) (hi : s.ignoreOffer = false) :
    onIceCandidate T s candidate =
      (s, [Event.consoleError ErrorSite.addingIceCandidate JsError.typeError]) := by
  simp [onIceCandidate, h, hi]

theorem onIceCandidate_makingOffer (T : Transport τ) (s : Session τ)
    (candidate : IceCandidate) :
    (onIceCandidate T s candidate).1.makingOffer = s.makingOffer := by
  unfold onIceCandidate
  split
  · rfl
  · split
    · rfl
    · split <;> rfl

/-- Counterexample to C4: a candidate reaches a page that has no peer connection yet.
`ignoreOffer` is false, yet the candidate is not passed to any transport: the method lookup
throws inside the `try` block and the `catch` block logs the error. -/
theorem onIceCandidate_not_passed_without_peerConnection :
    (Session.initial RefState).ignoreOffer = false ∧
    transportCalls (onIceCandidate transportA (Session.initial RefState) ⟨7⟩).2 = [] ∧
    (∀ id, (id, Call.addIceCandidate ⟨7⟩) ∉
      transportCalls (onIceCandidate transportA (Session.initial RefState) ⟨7⟩).2) ∧
    (onIceCandidate transportA (Session.initial RefState) ⟨7⟩).2
      = [Event.consoleError ErrorSite.addingIceCandidate JsError.typeError] := by
  refine ⟨rfl, rfl, ?_, rfl⟩
  intro id h
  have h0 : transportCalls (onIceCandidate transportA (Session.initial RefState) ⟨7⟩).2
      = [] := rfl
  rw [h0] at h
  cases h

/-- Claim C4 as amended.  In every session `signaling.onIceCandidate` keeps both flags, and
with `ignoreOffer` true on arrival the candidate is dropped: nothing is done at all, so the
transport is unchanged and nothing can fail.  When the peer connection exists, the candidate
is passed to `addIceCandidate` if and only if `ignoreOffer` is false on arrival; that is
then the only transport call, the session is left with the transport state that call
produced, and a rejection is only logged.  When there is no peer connection and
`ignoreOffer` is false, no transport call is made, the session is unchanged and the error is
only logged. -/
theorem onIceCandidate_gated (T : Transport τ) (s : Session τ) (candidate : IceCandidate) :
    (s.ignoreOffer = true → onIceCandidate T s candidate = (s, [])) ∧
    (∀ pc, s.peerConnection = some pc →
      ((pc.id, Call.addIceCandidate candidate) ∈
          transportCalls (onIceCandidate T s candidate).2 ↔ s.ignoreOffer = false) ∧
      (s.ignoreOffer = false →
        (onIceCandidate T s candidate).1 =
          { s with
            peerConnection := some ⟨pc.id, (T.addIceCandidate pc.st candidate).1⟩ } ∧
        transportCalls (onIceCandidate T s candidate).2
          = [(pc.id, Call.addIceCandidate candidate)] ∧
        (∀ e, (T.addIceCandidate pc.st candidate).2 = Except.error e →
          (onIceCandidate T s candidate).2 =
            [Event.call pc.id (Call.addIceCandidate candidate),
             Event.consoleError ErrorSite.addingIceCandidate e]) ∧
        ((T.addIceCandidate pc.st candidate).2 = Except.ok () →
          (onIceCandidate T s candidate).2 =
            [Event.call pc.id (Call.addIceCandidate candidate)]))) ∧
    (s.peerConnection = none → s.ignoreOffer = false →
      onIceCandidate T s candidate =
        (s, [Event.consoleError ErrorSite.addingIceCandidate JsError.typeError])) ∧
    (onIceCandidate T s candidate).1.makingOffer = s.makingOffer ∧
    (onIceCandidate T s candidate).1.ignoreOffer = s.ignoreOffer := by
  refine ⟨?_, ?_, onIceCandidate_without_peerConnection T s candidate,
    onIceCandidate_makingOffer T s candidate, onIceCandidate_ignoreOffer T s candidate⟩
  · intro hi
    simp [onIceCandidate, hi]
  · intro pc h
    cases hi : s.ignoreOffer
    · simp only [onIceCandidate, h, hi]
      generalize T.addIceCandidate pc.st candidate = x
      obtain ⟨st1, r1⟩ := x
      rcases r1 with e1 | u1 <;> simp [transportCalls]
    · simp [onIceCandidate, hi, transportCalls]

/-- Witness for the amended C4: a candidate reaches an endpoint that has not ignored any
offer and has no remote description yet; the transport rejects it and the rejection is only
logged. -/
theorem onIceCandidate_gated_witness :
    (idleSession transportA).peerConnection = some ⟨0, transportA.create⟩ ∧
    (idleSession transportA).ignoreOffer = false ∧
    (onIceCandidate transportA (idleSession transportA) ⟨7⟩).2 =
      [Event.call 0 (Call.addIceCandidate ⟨7⟩),
       Event.consoleError ErrorSite.addingIceCandidate JsError.invalidStateError] :=
  ⟨rfl, rfl,
   ((((onIceCandidate_gated transportA (idleSession transportA) ⟨7⟩).2.1
      ⟨0, transportA.create⟩ rfl).2 rfl).2.2.1) JsError.invalidStateError rfl⟩

/-! ## Who writes `ignoreOffer` -/

theorem startConnection_ignoreOffer (T : Transport τ) (s : Session τ) :
    (startConnection T s).1.ignoreOffer = s.ignoreOffer := by
  unfold startConnection ensurePeerConnection openOfferWindow
  cases s.peerConnection <;> dsimp only <;> split <;> first | rfl | (split <;> rfl)

theorem handleNegotiationNeeded_ignoreOffer (T : Transport τ) (s : Session τ) :
    (handleNegotiationNeeded T s).1.ignoreOffer = s.ignoreOffer := by
  unfold handleNegotiationNeeded openOfferWindow
  dsimp only
  split
  · rfl
  · split
    · rfl
    · split <;> rfl

theorem closePeerConnection_flags (s : Session τ) :
    (closePeerConnection s).1.peerConnection = none ∧
    (closePeerConnection s).1.makingOffer = s.makingOffer ∧
    (closePeerConnection s).1.ignoreOffer = s.ignoreOffer ∧
    (closePeerConnection s).1.allocated = s.allocated := by
  unfold closePeerConnection
  split
  · exact ⟨rfl, rfl, rfl, rfl⟩
  · next h => exact ⟨h, rfl, rfl, rfl⟩

theorem restartConnection_ignoreOffer (T : Transport τ) (s : Session τ) :
    (restartConnection T s).1.ignoreOffer = s.ignoreOffer := by
  unfold restartConnection
  dsimp only
  rw [startConnection_ignoreOffer, (closePeerConnection_flags s).2.2.1]

theorem step_ignoreOffer (T : Transport τ) (s : Session τ) (a : Action)
    (h : a.isOffer = false) : (step T s a).1.ignoreOffer = s.ignoreOffer := by
  cases a with
  | startConnection => exact startConnection_ignoreOffer T s
  | handleNegotiationNeeded => exact handleNegotiationNeeded_ignoreOffer T s
  | onOffer offer => simp [Action.isOffer] at h
  | onAnswer answer => exact onAnswer_ignoreOffer T s answer
  | onIceCandidate candidate => exact onIceCandidate_ignoreOffer T s candidate
  | handleICECandidateEvent candidate => cases candidate <;> rfl
  | restartConnection => exact restartConnection_ignoreOffer T s

theorem run_ignoreOffer (T : Transport τ) (acts : List Action) :
    ∀ s : Session τ, (∀ a ∈ acts, a.isOffer = false) →
      (run T s acts).1.ignoreOffer = s.ignoreOffer := by
  induction acts with
  | nil => intro s _; rfl
  | cons a rest ih =>
    intro s h
    show (run T (step T s a).1 rest).1.ignoreOffer = s.ignoreOffer
    rw [ih _ (fun b hb => h b (List.mem_cons_of_mem _ hb)),
      step_ignoreOffer T s a (h a (List.mem_cons_self _ _))]

theorem acceptPeerConnection_quiet (T : Transport τ) (s : Session τ) :
    transportCalls (acceptPeerConnection T s).2.2 = [] ∧
    sentAnswers (acceptPeerConnection T s).2.2 = [] ∧
    (acceptPeerConnection T s).2.1.makingOffer = s.makingOffer := by
  unfold acceptPeerConnection
  cases s.peerConnection <;> exact ⟨rfl, rfl, rfl⟩

theorem onOffer_ignoreOffer (T : Transport τ) (s : Session τ) (offer : SessionDescription) :
    (onOffer T s offer).1.ignoreOffer =
      ignoreOfferValue s.makingOffer (T.signalingState (acceptPeerConnection T s).1.st) := by
  rw [← (acceptPeerConnection_quiet T s).2.2]
  unfold onOffer
  generalize acceptPeerConnection T s = x
  obtain ⟨pc, s1, ev1⟩ := x
  dsimp only
  split
  · rfl
  · next hi =>
    have hi2 : ignoreOfferValue s1.makingOffer (T.signalingState pc.st) = false := by
      simpa using hi
    rw [hi2]
    split
    · split
      · rfl
      · rfl
      · exact (answerOffer_flags T _ pc _ _).1
    · split
      · rfl
      · exact (answerOffer_flags T _ pc _ _).1

theorem onOffer_ignoreOffer_path (T : Transport τ) (s : Session τ)
    (offer : SessionDescription) (h : (onOffer T s offer).1.ignoreOffer = true) :
    TookIgnorePath (onOffer T s offer).2 := by
  have hv := onOffer_ignoreOffer T s offer
  rw [h, ← (acceptPeerConnection_quiet T s).2.2] at hv
  have hq := acceptPeerConnection_quiet T s
  revert hv hq
  unfold onOffer
  generalize acceptPeerConnection T s = x
  obtain ⟨pc, s1, ev1⟩ := x
  dsimp only
  intro hv hq
  rw [if_pos hv.symm]
  exact ⟨by simpa [transportCalls] using hq.1, by simpa [sentAnswers] using hq.2.1⟩

theorem onOffer_applied_calls (T : Transport τ) (s : Session τ)
    (offer : SessionDescription) (h : (onOffer T s offer).1.ignoreOffer = false) :
    transportCalls (onOffer T s offer).2 ≠ [] := by
  have hv := onOffer_ignoreOffer T s offer
  rw [h, ← (acceptPeerConnection_quiet T s).2.2] at hv
  revert hv
  unfold onOffer
  generalize acceptPeerConnection T s = x
  obtain ⟨pc, s1, ev1⟩ := x
  dsimp only
  intro hv
  rw [← hv]
  simp only [Bool.false_eq_true, if_false]
  split
  · split
    · simp [transportCalls_append, transportCalls]
    · simp [transportCalls_append, transportCalls]
    · obtain ⟨rest, hrest⟩ := answerOffer_calls T
        { s1 with ignoreOffer := false } pc
        (T.setRemoteDescription (T.setLocalDescription pc.st rollbackDescription).1 offer).1
        (Event.status StatusText.receivedOffer :: ev1 ++
          [Event.call pc.id (Call.setLocalDescription rollbackDescription),
           Event.call pc.id (Call.setRemoteDescription offer)])
      rw [hrest]
      simp [transportCalls_append, transportCalls]
  · split
    · simp [transportCalls_append, transportCalls]
    · next st1 _ _ =>
      obtain ⟨rest, hrest⟩ := answerOffer_calls T
        { s1 with ignoreOffer := false } pc st1
        (Event.status StatusText.receivedOffer :: ev1 ++
          [Event.call pc.id (Call.setRemoteDescription offer)])
      rw [hrest]
      simp [transportCalls_append, transportCalls]

/-- Claim C10: `ignoreOffer` is written by `signaling.onOffer` alone.  Every other handler
(`startConnection`, `handleNegotiationNeeded`, `signaling.onAnswer`,
`signaling.onIceCandidate`, `handleICECandidateEvent`, `restartConnection`) leaves it as it
was.  Hence once `ignoreOffer` is true, after any sequence of handler runs that contains no
inbound offer it is still true and an inbound candidate is dropped with no effect; and an
inbound offer leaves `ignoreOffer` true exactly when it is ignored, false otherwise. -/
theorem ignoreOffer_written_only_by_onOffer (T : Transport τ) :
    (∀ (s : Session τ) (a : Action), a.isOffer = false →
        (step T s a).1.ignoreOffer = s.ignoreOffer) ∧
    (∀ (s : Session τ) (acts : List Action) (candidate : IceCandidate),
        s.ignoreOffer = true → (∀ a ∈ acts, a.isOffer = false) →
        (run T s acts).1.ignoreOffer = true ∧
        onIceCandidate T (run T s acts).1 candidate = ((run T s acts).1, [])) ∧
    (∀ (s : Session τ) (offer : SessionDescription),
        ¬ TookIgnorePath (onOffer T s offer).2 → (onOffer T s offer).1.ignoreOffer = false) ∧
    (∀ (s : Session τ) (offer : SessionDescription),
        TookIgnorePath (onOffer T s offer).2 → (onOffer T s offer).1.ignoreOffer = true) := by
  refine ⟨step_ignoreOffer T, ?_, ?_, ?_⟩
  · intro s acts candidate hs hacts
    have hrun : (run T s acts).1.ignoreOffer = true := by
      rw [run_ignoreOffer T acts s hacts, hs]
    exact ⟨hrun, by simp [onIceCandidate, hrun]⟩
  · intro s offer hp
    cases hi : (onOffer T s offer).1.ignoreOffer
    · rfl
    · exact absurd (onOffer_ignoreOffer_path T s offer hi) hp
  · intro s offer hp
    cases hi : (onOffer T s offer).1.ignoreOffer
    · exact absurd hp.1 (onOffer_applied_calls T s offer hi)
    · rfl

/-- Witness for C10: endpoint B has sent its own offer, ignores the offer that crosses it,
then applies an answer and is stable again; a candidate that arrives then is still dropped. -/
theorem ignoreOffer_written_only_by_onOffer_witness :
    (onOffer transportB (handleNegotiationNeeded transportB (idleSession transportB)).1
        ⟨SdpType.offer, 100⟩).1.ignoreOffer = true ∧
    Session.signalingState transportB
      (run transportB
        (onOffer transportB (handleNegotiationNeeded transportB (idleSession transportB)).1
          ⟨SdpType.offer, 100⟩).1
        [Action.onAnswer ⟨SdpType.answer, 101⟩]).1 = some SignalingState.stable ∧
    onIceCandidate transportB
      (run transportB
        (onOffer transportB (handleNegotiationNeeded transportB (idleSession transportB)).1
          ⟨SdpType.offer, 100⟩).1
        [Action.onAnswer ⟨SdpType.answer, 101⟩]).1 ⟨7⟩ =
      ((run transportB
        (onOffer transportB (handleNegotiationNeeded transportB (idleSession transportB)).1
          ⟨SdpType.offer, 100⟩).1
        [Action.onAnswer ⟨SdpType.answer, 101⟩]).1, []) :=
  ⟨rfl, rfl,
   ((ignoreOffer_written_only_by_onOffer transportB).2.1
      (onOffer transportB (handleNegotiationNeeded transportB (idleSession transportB)).1
        ⟨SdpType.offer, 100⟩).1
      [Action.onAnswer ⟨SdpType.answer, 101⟩] ⟨7⟩ rfl (by decide)).2⟩

/-! ## Glare -/

/-- On a collision the offer is never applied directly: the handler rolls back when
`makingOffer` is true and ignores the offer when it is false. -/
theorem onOffer_collision_paths (T : Transport τ) (s : Session τ) (pc : PeerConnection τ)
    (offer : SessionDescription) (h : s.peerConnection = some pc)
    (c : offerCollision s.makingOffer (T.signalingState pc.st) = true) :
    ¬ TookDirectPath pc.id offer (onOffer T s offer).2 ∧
    (TookRollbackPath pc.id offer (onOffer T s offer).2 ↔ s.makingOffer = true) ∧
    (TookIgnorePath (onOffer T s offer).2 ↔ s.makingOffer = false) := by
  cases hm : s.makingOffer
  · have hs : T.signalingState pc.st ≠ SignalingState.stable := by
      simpa [offerCollision, hm] using c
    rw [onOffer_ignored T s pc offer h hm hs]
    simp [TookIgnorePath, TookRollbackPath, TookDirectPath, transportCalls, sentAnswers]
  · obtain ⟨-, rest, hc⟩ := onOffer_rollback T s pc offer h hm
    simp [TookIgnorePath, TookRollbackPath, TookDirectPath, hc]

/-- Counterexample to C5: both endpoints send their offer through
`handleNegotiationNeeded`, which completes before the crossing offer arrives.  Each side then
has `makingOffer` false and a local offer set, so both sides ignore: nobody rolls back. -/
theorem glare_both_ignore :
    sentOffers (handleNegotiationNeeded transportA (idleSession transportA)).2
      = [⟨SdpType.offer, 100⟩] ∧
    sentOffers (handleNegotiationNeeded transportB (idleSession transportB)).2
      = [⟨SdpType.offer, 200⟩] ∧
    TookIgnorePath
      (crossingOffers handleNegotiationNeeded handleNegotiationNeeded transportA transportB
        (idleSession transportA) (idleSession transportB)).1.2 ∧
    TookIgnorePath
      (crossingOffers handleNegotiationNeeded handleNegotiationNeeded transportA transportB
        (idleSession transportA) (idleSession transportB)).2.2 ∧
    ¬ GlareResolved
        0 ⟨SdpType.offer, 200⟩
        (crossingOffers handleNegotiationNeeded handleNegotiationNeeded transportA transportB
          (idleSession transportA) (idleSession transportB)).1.2
        0 ⟨SdpType.offer, 100⟩
        (crossingOffers handleNegotiationNeeded handleNegotiationNeeded transportA transportB
          (idleSession transportA) (idleSession transportB)).2.2 := by
  decide

/-- Claim C5 as amended: when the crossing offers are delivered to two sides that each
still have a collision on arrival (own `makingOffer` true, or signaling state not stable),
neither side applies the offer directly; a side takes the rollback path exactly when its own
`makingOffer` is true on arrival and ignores the offer exactly when it is false.  So one
side rolls back and the other ignores exactly when the two `makingOffer` values differ. -/
theorem glare_outcome_by_makingOffer {α β : Type} (TA : Transport α) (TB : Transport β)
    (a : Session α) (b : Session β) (pcA : PeerConnection α) (pcB : PeerConnection β)
    (toA toB : SessionDescription)
    (hA : a.peerConnection = some pcA) (hB : b.peerConnection = some pcB)
    (cA : offerCollision a.makingOffer (TA.signalingState pcA.st) = true)
    (cB : offerCollision b.makingOffer (TB.signalingState pcB.st) = true) :
    ¬ TookDirectPath pcA.id toA (onOffer TA a toA).2 ∧
    ¬ TookDirectPath pcB.id toB (onOffer TB b toB).2 ∧
    (TookRollbackPath pcA.id toA (onOffer TA a toA).2 ↔ a.makingOffer = true) ∧
    (TookIgnorePath (onOffer TA a toA).2 ↔ a.makingOffer = false) ∧
    (TookRollbackPath pcB.id toB (onOffer TB b toB).2 ↔ b.makingOffer = true) ∧
    (TookIgnorePath (onOffer TB b toB).2 ↔ b.makingOffer = false) ∧
    (GlareResolved pcA.id toA (onOffer TA a toA).2 pcB.id toB (onOffer TB b toB).2 ↔
        a.makingOffer ≠ b.makingOffer) := by
  obtain ⟨dA, rA, iA⟩ := onOffer_collision_paths TA a pcA toA hA cA
  obtain ⟨dB, rB, iB⟩ := onOffer_collision_paths TB b pcB toB hB cB
  refine ⟨dA, dB, rA, iA, rB, iB, ?_⟩
  unfold GlareResolved
  rw [iA, rA, iB, rB]
  cases a.makingOffer <;> cases b.makingOffer <;> simp

/-- Witness for the amended C5: A has sent its offer through `startConnection`, B through
`handleNegotiationNeeded`; A rolls back and B ignores. -/
theorem glare_outcome_by_makingOffer_witness :
    offerCollision (startConnection transportA (idleSession transportA)).1.makingOffer
      SignalingState.haveLocalOffer = true ∧
    offerCollision (handleNegotiationNeeded transportB (idleSession transportB)).1.makingOffer
      SignalingState.haveLocalOffer = true ∧
    GlareResolved
      0 ⟨SdpType.offer, 200⟩
      (onOffer transportA (startConnection transportA (idleSession transportA)).1
        ⟨SdpType.offer, 200⟩).2
      0 ⟨SdpType.offer, 100⟩
      (onOffer transportB (handleNegotiationNeeded transportB (idleSession transportB)).1
        ⟨SdpType.offer, 100⟩).2 :=
  ⟨rfl, rfl,
   (glare_outcome_by_makingOffer transportA transportB
      (startConnection transportA (idleSession transportA)).1
      (handleNegotiationNeeded transportB (idleSession transportB)).1
      ⟨0, (transportA.setLocalDescription (transportA.createOffer transportA.create).1
          ⟨SdpType.offer, 100⟩).1⟩
      ⟨0, (transportB.setLocalDescription (transportB.createOffer transportB.create).1
          ⟨SdpType.offer, 200⟩).1⟩
      ⟨SdpType.offer, 200⟩ ⟨SdpType.offer, 100⟩ rfl rfl rfl rfl).2.2.2.2.2.2.2
      (by decide)⟩

/-! ## End-to-end scenario 1 -/

/-- Scenario 1 with the offer sent through `handleNegotiationNeeded`: B applies the offer
directly and answers, A applies the answer, and both sides end stable. -/
theorem scenario1_handleNegotiationNeeded :
    TookDirectPath 0 ⟨SdpType.offer, 100⟩
      (scenario1 handleNegotiationNeeded transportA transportB
        (idleSession transportA) (idleSession transportB)).2.2 ∧
    sentAnswers
      (scenario1 handleNegotiationNeeded transportA transportB
        (idleSession transportA) (idleSession transportB)).2.2 = [⟨SdpType.answer, 200⟩] ∧
    transportCalls
      (scenario1 handleNegotiationNeeded transportA transportB
        (idleSession transportA) (idleSession transportB)).1.2
      = [(0, Call.setRemoteDescription ⟨SdpType.answer, 200⟩)] ∧
    Session.signalingState transportA
      (scenario1 handleNegotiationNeeded transportA transportB
        (idleSession transportA) (idleSession transportB)).1.1 = some SignalingState.stable ∧
    Session.signalingState transportB
      (scenario1 handleNegotiationNeeded transportA transportB
        (idleSession transportA) (idleSession transportB)).2.1 = some SignalingState.stable := by
  decide

/-- Claim C6 at its failing input: scenario 1 with the offer sent through
`startConnection` on a transport that rejects nothing.  B applies the offer directly and
sends its answer, but A still has `makingOffer` true, so `signaling.onAnswer` discards the
answer with a warning and A stays in have-local-offer. -/
theorem scenario1_startConnection_answer_discarded :
    TookDirectPath 0 ⟨SdpType.offer, 100⟩
      (scenario1 startConnection transportA transportB
        (idleSession transportA) (idleSession transportB)).2.2 ∧
    sentAnswers
      (scenario1 startConnection transportA transportB
        (idleSession transportA) (idleSession transportB)).2.2 = [⟨SdpType.answer, 200⟩] ∧
    Session.signalingState transportB
      (scenario1 startConnection transportA transportB
        (idleSession transportA) (idleSession transportB)).2.1 = some SignalingState.stable ∧
    (scenario1 startConnection transportA transportB
        (idleSession transportA) (idleSession transportB)).1.1.makingOffer = true ∧
    (scenario1 startConnection transportA transportB
        (idleSession transportA) (idleSession transportB)).1.2
      = [Event.consoleWarn SignalingState.haveLocalOffer] ∧
    Session.signalingState transportA
      (scenario1 startConnection transportA transportB
        (idleSession transportA) (idleSession transportB)).1.1
      = some SignalingState.haveLocalOffer ∧
    (scenario1 startConnection transportA transportB
        (Session.initial RefState) (Session.initial RefState)).1.2
      = [Event.consoleWarn SignalingState.haveLocalOffer] := by
  decide

/-! ## The collision branch -/

/-- Counterexample to C8: A has sent its offer through `startConnection`; the offer that
crosses it is rolled back for, but the transport rejects its application.  The error is
reported and no answer is sent, yet the rollback stays applied: the signaling state went
from have-local-offer to stable and the transport is not as it was before the step. -/
theorem rollback_not_undone :
    TookRollbackPath 0 ⟨SdpType.offer, 200⟩
      (onOffer transportRejectingOffer
        (startConnection transportRejectingOffer (idleSession transportRejectingOffer)).1
        ⟨SdpType.offer, 200⟩).2 ∧
    reportedErrors
      (onOffer transportRejectingOffer
        (startConnection transportRejectingOffer (idleSession transportRejectingOffer)).1
        ⟨SdpType.offer, 200⟩).2 = [(ErrorSite.handlingOffer, JsError.operationError)] ∧
    Session.signalingState transportRejectingOffer
      (startConnection transportRejectingOffer (idleSession transportRejectingOffer)).1
      = some SignalingState.haveLocalOffer ∧
    Session.signalingState transportRejectingOffer
      (onOffer transportRejectingOffer
        (startConnection transportRejectingOffer (idleSession transportRejectingOffer)).1
        ⟨SdpType.offer, 200⟩).1 = some SignalingState.stable ∧
    (onOffer transportRejectingOffer
        (startConnection transportRejectingOffer (idleSession transportRejectingOffer)).1
        ⟨SdpType.offer, 200⟩).1.peerConnection ≠
      (startConnection transportRejectingOffer
        (idleSession transportRejectingOffer)).1.peerConnection := by
  decide

/-- Claim C8 as amended: on the collision branch of `signaling.onOffer` both calls are
always issued, the rollback first and the remote offer second.  If either is rejected, no
answer is created or sent and exactly one error is reported; the transport is left as those
two calls left it, so nothing is undone. -/
theorem rollback_failure_reported (T : Transport τ) (s : Session τ) (pc : PeerConnection τ)
    (offer : SessionDescription) (h : s.peerConnection = some pc)
    (hm : s.makingOffer = true)
    (hfail : (T.setLocalDescription pc.st rollbackDescription).2.isOk = false ∨
      (T.setRemoteDescription (T.setLocalDescription pc.st rollbackDescription).1 offer).2.isOk
        = false) :
    transportCalls (onOffer T s offer).2 =
      [(pc.id, Call.setLocalDescription rollbackDescription),
       (pc.id, Call.setRemoteDescription offer)] ∧
    sentAnswers (onOffer T s offer).2 = [] ∧
    (∃ e, reportedErrors (onOffer T s offer).2 = [(ErrorSite.handlingOffer, e)]) ∧
    (onOffer T s offer).1.peerConnection =
      some ⟨pc.id,
        (T.setRemoteDescription (T.setLocalDescription pc.st rollbackDescription).1 offer).1⟩ := by
  revert hfail
  simp only [onOffer, acceptPeerConnection, h, ignoreOfferValue, offerCollision, hm]
  simp only [Bool.not_true, Bool.false_and, Bool.true_or, if_true, Bool.false_eq_true, if_false]
  generalize T.setLocalDescription pc.st rollbackDescription = x1
  obtain ⟨st1, r1⟩ := x1
  generalize T.setRemoteDescription st1 offer = x2
  obtain ⟨st2, r2⟩ := x2
  rcases r1 with e1 | u1 <;> rcases r2 with e2 | u2 <;>
    simp [transportCalls, sentAnswers, reportedErrors, Except.isOk, Except.toBool]

/-- Witness for the amended C8: the offer that crosses A's own is rolled back for, and the
transport rejects its application. -/
theorem rollback_failure_reported_witness :
    transportCalls
      (onOffer transportRejectingOffer
        (startConnection transportRejectingOffer (idleSession transportRejectingOffer)).1
        ⟨SdpType.offer, 200⟩).2 =
      [(0, Call.setLocalDescription rollbackDescription),
       (0, Call.setRemoteDescription ⟨SdpType.offer, 200⟩)] :=
  (rollback_failure_reported transportRejectingOffer
      (startConnection transportRejectingOffer (idleSession transportRejectingOffer)).1
      ⟨0, (transportRejectingOffer.setLocalDescription
            (transportRejectingOffer.createOffer transportRejectingOffer.create).1
            ⟨SdpType.offer, 100⟩).1⟩
      ⟨SdpType.offer, 200⟩ rfl rfl (Or.inr rfl)).1

/-! ## Restart -/

theorem answerOffer_numbering (T : Transport τ) (s : Session τ) (pc : PeerConnection τ)
    (st : τ) (evs : List Event) :
    (answerOffer T s pc st evs).1.allocated = s.allocated ∧
    ∃ st1, (answerOffer T s pc st evs).1.peerConnection = some ⟨pc.id, st1⟩ := by
  unfold answerOffer
  split
  · exact ⟨rfl, _, rfl⟩
  · split <;> exact ⟨rfl, _, rfl⟩

theorem startConnection_numbering (T : Transport τ) (s : Session τ) :
    (∀ pc, s.peerConnection = some pc →
      (startConnection T s).1.allocated = s.allocated ∧
      ∃ st1, (startConnection T s).1.peerConnection = some ⟨pc.id, st1⟩) ∧
    (s.peerConnection = none →
      (startConnection T s).1.allocated = s.allocated + 1 ∧
      ∃ st1, (startConnection T s).1.peerConnection = some ⟨s.allocated, st1⟩) := by
  constructor
  · intro pc h
    simp only [startConnection, ensurePeerConnection, openOfferWindow, h]
    split
    · exact ⟨rfl, _, rfl⟩
    · split <;> exact ⟨rfl, _, rfl⟩
  · intro h
    simp only [startConnection, ensurePeerConnection, openOfferWindow, h]
    split
    · exact ⟨rfl, _, rfl⟩
    · split <;> exact ⟨rfl, _, rfl⟩

theorem startConnection_wellNumbered (T : Transport τ) (s : Session τ)
    (hw : WellNumbered s) : WellNumbered (startConnection T s).1 := by
  intro pc1 h1
  cases hpc : s.peerConnection with
  | none =>
    obtain ⟨ha, st1, hp⟩ := (startConnection_numbering T s).2 hpc
    rw [hp] at h1
    cases h1
    rw [ha]
    exact Nat.lt_succ_self _
  | some pc =>
    obtain ⟨ha, st1, hp⟩ := (startConnection_numbering T s).1 pc hpc
    rw [hp] at h1
    cases h1
    rw [ha]
    exact hw pc hpc

theorem handleNegotiationNeeded_wellNumbered (T : Transport τ) (s : Session τ)
    (hw : WellNumbered s) : WellNumbered (handleNegotiationNeeded T s).1 := by
  intro pc1 h1
  cases hpc : s.peerConnection with
  | none =>
    simp [handleNegotiationNeeded, openOfferWindow, hpc] at h1
  | some pc =>
    have hlt := hw pc hpc
    revert h1
    simp only [handleNegotiationNeeded, openOfferWindow, hpc]
    split
    · intro h1; cases h1; exact hlt
    · split <;> (intro h1; cases h1; exact hlt)

theorem onOffer_wellNumbered (T : Transport τ) (s : Session τ) (offer : SessionDescription)
    (hw : WellNumbered s) : WellNumbered (onOffer T s offer).1 := by
  have key : ∀ (pc : PeerConnection τ) (s1 : Session τ) (ev1 : List Event),
      acceptPeerConnection T s = (pc, s1, ev1) →
      s1.peerConnection = some pc ∧ pc.id < s1.allocated := by
    intro pc s1 ev1
    unfold acceptPeerConnection
    cases hpc : s.peerConnection with
    | none =>
      intro h
      cases h
      exact ⟨rfl, Nat.lt_succ_self _⟩
    | some pc0 =>
      intro h
      cases h
      exact ⟨hpc, hw _ hpc⟩
  intro pc1 h1
  revert h1 key
  unfold onOffer
  generalize acceptPeerConnection T s = x
  obtain ⟨pc, s1, ev1⟩ := x
  dsimp only
  intro key h1
  obtain ⟨k1, k2⟩ := key pc s1 ev1 rfl
  revert h1
  split
  · intro h1
    have : pc1 = pc := by
      have := k1.symm.trans h1
      cases this
      rfl
    rw [this]; exact k2
  · split
    · split
      · intro h1; cases h1; exact k2
      · intro h1; cases h1; exact k2
      · intro h1
        obtain ⟨ha, st1, hp⟩ := answerOffer_numbering T
          { s1 with ignoreOffer := ignoreOfferValue s1.makingOffer (T.signalingState pc.st) }
          pc (T.setRemoteDescription (T.setLocalDescription pc.st rollbackDescription).1
            offer).1
          (Event.status StatusText.receivedOffer :: ev1 ++
            [Event.call pc.id (Call.setLocalDescription rollbackDescription),
             Event.call pc.id (Call.setRemoteDescription offer)])
        rw [hp] at h1
        cases h1
        rw [ha]
        exact k2
    · split
      · intro h1; cases h1; exact k2
      · next st1 _ _ =>
        intro h1
        obtain ⟨ha, st2, hp⟩ := answerOffer_numbering T
          { s1 with ignoreOffer := ignoreOfferValue s1.makingOffer (T.signalingState pc.st) }
          pc st1
          (Event.status StatusText.receivedOffer :: ev1 ++
            [Event.call pc.id (Call.setRemoteDescription offer)])
        rw [hp] at h1
        cases h1
        rw [ha]
        exact k2

theorem onAnswer_wellNumbered (T : Transport τ) (s : Session τ)
    (answer : SessionDescription) (hw : WellNumbered s) :
    WellNumbered (onAnswer T s answer).1 := by
  intro pc1 h1
  cases hpc : s.peerConnection with
  | none => simp [onAnswer, hpc] at h1
  | some pc =>
    have hlt := hw pc hpc
    revert h1
    simp only [onAnswer, hpc]
    split
    · intro h1
      rw [hpc] at h1
      cases h1
      exact hlt
    · split <;> (intro h1; cases h1; exact hlt)

theorem onIceCandidate_wellNumbered (T : Transport τ) (s : Session τ)
    (candidate : IceCandidate) (hw : WellNumbered s) :
    WellNumbered (onIceCandidate T s candidate).1 := by
  intro pc1 h1
  revert h1
  unfold onIceCandidate
  split
  · exact hw pc1
  · cases hpc : s.peerConnection with
    | none => exact hw pc1
    | some pc =>
      have hlt := hw pc hpc
      dsimp only
      split <;> (intro h1; cases h1; exact hlt)

theorem restartConnection_wellNumbered (T : Transport τ) (s : Session τ) :
    WellNumbered (restartConnection T s).1 := by
  have hc : WellNumbered (closePeerConnection s).1 := by
    intro pc h
    rw [(closePeerConnection_flags s).1] at h
    cases h
  exact startConnection_wellNumbered T _ hc

/-- The numbering of peer connections is an invariant: it holds when the page is loaded and
every handler preserves it. -/
theorem step_wellNumbered (T : Transport τ) :
    WellNumbered (Session.initial τ) ∧
    ∀ (s : Session τ) (a : Action), WellNumbered s → WellNumbered (step T s a).1 := by
  refine ⟨?_, ?_⟩
  · intro pc h
    cases h
  intro s a hw
  cases a with
  | startConnection => exact startConnection_wellNumbered T s hw
  | handleNegotiationNeeded => exact handleNegotiationNeeded_wellNumbered T s hw
  | onOffer offer => exact onOffer_wellNumbered T s offer hw
  | onAnswer answer => exact onAnswer_wellNumbered T s answer hw
  | onIceCandidate candidate => exact onIceCandidate_wellNumbered T s candidate hw
  | handleICECandidateEvent candidate => cases candidate <;> exact hw
  | restartConnection => exact restartConnection_wellNumbered T s

/-- Counterexample to C9: an endpoint that has ignored an offer is restarted.  When
`restartConnection` has closed the old peer connection, and also when the new offer has been
made, `ignoreOffer` is still true. -/
theorem restart_keeps_ignoreOffer :
    (onOffer transportA (handleNegotiationNeeded transportA (idleSession transportA)).1
      ⟨SdpType.offer, 200⟩).1.ignoreOffer = true ∧
    (closePeerConnection
      (onOffer transportA (handleNegotiationNeeded transportA (idleSession transportA)).1
        ⟨SdpType.offer, 200⟩).1).1.peerConnection = none ∧
    ¬ ((closePeerConnection
          (onOffer transportA (handleNegotiationNeeded transportA (idleSession transportA)).1
            ⟨SdpType.offer, 200⟩).1).1.makingOffer = false ∧
       (closePeerConnection
          (onOffer transportA (handleNegotiationNeeded transportA (idleSession transportA)).1
            ⟨SdpType.offer, 200⟩).1).1.ignoreOffer = false) ∧
    (restartConnection transportA
      (onOffer transportA (handleNegotiationNeeded transportA (idleSession transportA)).1
        ⟨SdpType.offer, 200⟩).1).1.ignoreOffer = true := by
  decide

/-- Claim C9 as amended: `restartConnection` closes the old peer connection and forgets it,
leaving `makingOffer` and `ignoreOffer` exactly as they were; the offer that follows is made
on a peer connection constructed by the restart, whose identity differs from the closed
one, and that new object is the one the session is bound to afterwards. -/
theorem restartConnection_fresh_transport (T : Transport τ) (s : Session τ)
    (pc : PeerConnection τ) (h : s.peerConnection = some pc) (hn : pc.id < s.allocated) :
    (closePeerConnection s).2 = [Event.call pc.id Call.close] ∧
    (closePeerConnection s).1.peerConnection = none ∧
    (closePeerConnection s).1.makingOffer = s.makingOffer ∧
    (closePeerConnection s).1.ignoreOffer = s.ignoreOffer ∧
    constructed (restartConnection T s).2 = [s.allocated] ∧
    s.allocated ≠ pc.id ∧
    (∃ rest, transportCalls (restartConnection T s).2 =
        (pc.id, Call.close) :: (s.allocated, Call.createDataChannel) ::
          (s.allocated, Call.createOffer) :: rest ∧
        ∀ c ∈ rest, c.1 = s.allocated) ∧
    (∃ st, (restartConnection T s).1.peerConnection = some ⟨s.allocated, st⟩) := by
  refine ⟨by simp [closePeerConnection, h], (closePeerConnection_flags s).1,
    (closePeerConnection_flags s).2.1, (closePeerConnection_flags s).2.2.1, ?_,
    Nat.ne_of_gt hn, ?_, ?_⟩
  all_goals
    simp only [restartConnection, closePeerConnection, h, startConnection,
      ensurePeerConnection, openOfferWindow]
    generalize T.createOffer (T.createDataChannel T.create) = x1
    obtain ⟨st1, r1⟩ := x1
    rcases r1 with e1 | offer
    · simp [constructed, transportCalls]
    · dsimp only
      generalize T.setLocalDescription st1 offer = x2
      obtain ⟨st2, r2⟩ := x2
      rcases r2 with e2 | u2 <;> simp [constructed, transportCalls]

/-- Witness for the amended C9: an endpoint that has ignored an offer is restarted; the
restart constructs the second peer connection of the page. -/
theorem restartConnection_fresh_transport_witness :
    constructed
      (restartConnection transportA
        (onOffer transportA (handleNegotiationNeeded transportA (idleSession transportA)).1
          ⟨SdpType.offer, 200⟩).1).2 = [1] :=
  (restartConnection_fresh_transport transportA
      (onOffer transportA (handleNegotiationNeeded transportA (idleSession transportA)).1
        ⟨SdpType.offer, 200⟩).1
      ⟨0, (transportA.setLocalDescription (transportA.createOffer transportA.create).1
          ⟨SdpType.offer, 100⟩).1⟩ rfl (by decide)).2.2.2.2.1

end Rtc
